import Mathlib

/-!
Verification of `src/camel/chat_agent.py`: a shallow embedding of the
`ChatAgent` / `TaskSpecifyAgent` classes and proofs about their behaviour.

External collaborators (the OpenAI completion endpoint, the token counter
`num_tokens_from_messages`, the model-ceiling lookup `get_model_token_limit`,
and the template file) are modelled as parameters: the token counter as a
function argument, the completion service as a per-attempt oracle (a list of
`Option ServiceResponse`, `none` meaning the call raised), the model ceiling
as the `model_token_limit` field, and the template file as a string argument.
The `model` / `model_config` constructor arguments are consumed only by these
collaborators and carry no logic of their own, so they are absorbed into the
oracle and the ceiling field.
-/

/-- Modelled from the spec: `RoleType` is defined in `camel_typing`, which is
not under `src/`; the spec fixes a small closed set of conversational roles
(system, user/human, assistant). -/
inductive RoleType where
  | system
  | user
  | assistant
deriving DecidableEq, Repr

/-- Modelled from the spec: `ChatMessage` is defined in `camel_typing`, which
is not under `src/`. A message carries a free-text role name (the persona), a
role category, the wire-format role tag, and textual content; it is immutable
once created. The constructor order matches the call sites in
`chat_agent.py`: `ChatMessage(role_name, role_type, role, content)`. -/
structure ChatMessage where
  role_name : String
  role_type : RoleType
  role : String
  content : String
deriving DecidableEq, Repr

/-- Usage counters returned by the completion service (`response["usage"]`),
an opaque mapping passed through verbatim. -/
abbrev Usage := List (String × Nat)

/-- One candidate choice of a completion-service response:
`choice["message"]` has `role` and `content` fields, and the choice carries a
`finish_reason`. -/
structure Choice where
  message_role : String
  message_content : String
  finish_reason : String
deriving DecidableEq, Repr

/-- A successful completion-service response: request identifier, usage
counters, and the list of candidate choices. -/
structure ServiceResponse where
  id : String
  usage : Usage
  choices : List Choice
deriving DecidableEq, Repr

/-- The metadata record assembled by `ChatAgent.get_info`. -/
structure Info where
  id : Option String
  usage : Option Usage
  finish_reasons : List String
  num_tokens : Nat
deriving DecidableEq, Repr

/-- The mutable state of a `ChatAgent` instance: the fields set by
`ChatAgent.__init__`. `role_name` / `role_type` are copied from the system
message; `model_token_limit` is the value of the collaborator
`get_model_token_limit(model)`. -/
structure ChatAgent where
  system_message : ChatMessage
  role_name : String
  role_type : RoleType
  model_token_limit : Nat
  terminated : Bool
  stored_messages : List ChatMessage
deriving DecidableEq, Repr

/-- `ChatAgent.init_messages`: set the transcript to the single-element list
holding the system message. -/
def ChatAgent.init_messages (s : ChatAgent) : ChatAgent :=
  { s with stored_messages := [s.system_message] }

/-- `ChatAgent.__init__`: store the persona fields, the token ceiling obtained
from the collaborator lookup, clear `terminated`, and initialize the
transcript. -/
def ChatAgent.mkAgent (system_message : ChatMessage) (model_token_limit : Nat) :
    ChatAgent :=
  ChatAgent.init_messages
    { system_message := system_message
      role_name := system_message.role_name
      role_type := system_message.role_type
      model_token_limit := model_token_limit
      terminated := false
      stored_messages := [] }

/-- `ChatAgent.reset`: clear the terminated flag, reinitialize the transcript,
and return `self.stored_messages`. It consults no external collaborator (its
type mentions neither the service oracle nor the token counter). -/
def ChatAgent.reset (s : ChatAgent) : ChatAgent × List ChatMessage :=
  let s1 := (ChatAgent.init_messages { s with terminated := false })
  (s1, s1.stored_messages)

/-- `ChatAgent.get_info`: assemble the metadata record. -/
def ChatAgent.get_info (id : Option String) (usage : Option Usage)
    (finish_reasons : List String) (num_tokens : Nat) : Info :=
  { id := id, usage := usage, finish_reasons := finish_reasons
    num_tokens := num_tokens }

/-- `ChatAgent.update_messages`: append one message to the transcript and
return the full transcript. -/
def ChatAgent.update_messages (s : ChatAgent) (message : ChatMessage) :
    ChatAgent × List ChatMessage :=
  let s1 := { s with stored_messages := s.stored_messages ++ [message] }
  (s1, s1.stored_messages)

/-- The value `(output_messages, self.terminated, info)` returned by one
successful execution of the body of `ChatAgent.step`. -/
structure StepResult where
  output_messages : List ChatMessage
  terminated : Bool
  info : Info
deriving DecidableEq, Repr

/-- `ChatMessage(self.role_name, self.role_type, **dict(choice["message"]))`:
an outgoing message built from one candidate choice, persona fields fixed to
the agent's. -/
def choiceToMessage (s : ChatAgent) (choice : Choice) : ChatMessage :=
  { role_name := s.role_name, role_type := s.role_type
    role := choice.message_role, content := choice.message_content }

/-- Outcome of one attempt of the body of `ChatAgent.step`: the state after
the attempt (mutations persist even when the attempt raises), the returned
triple (`none` when the attempt raised an exception), and the requests made
to the external completion service, each recorded as the transcript it
carried. -/
structure AttemptOutcome where
  state : ChatAgent
  result : Option StepResult
  requests : List (List ChatMessage)
deriving DecidableEq, Repr

/-- One attempt of the body of `ChatAgent.step`: append the incoming message,
count tokens over the full transcript, then either call the service (strictly
under the ceiling) or terminate (at or over the ceiling). `oracle = none`
means the service call raised a transient error. A response with zero choices
makes `output_messages[0]` raise, which is also an attempt failure. -/
def stepAttempt (numTokens : List ChatMessage → Nat)
    (oracle : Option ServiceResponse) (s : ChatAgent) (input_message : ChatMessage) :
    AttemptOutcome :=
  let (s1, messages) := ChatAgent.update_messages s input_message
  let num_tokens := numTokens messages
  if num_tokens < s1.model_token_limit then
    match oracle with
    | none => { state := s1, result := none, requests := [messages] }
    | some response =>
      let output_messages := response.choices.map (choiceToMessage s1)
      let info := ChatAgent.get_info (some response.id) (some response.usage)
        (response.choices.map (fun choice => choice.finish_reason)) num_tokens
      match output_messages with
      | [] => { state := s1, result := none, requests := [messages] }
      | first :: _ =>
        { state := (ChatAgent.update_messages s1 first).1
          result := some { output_messages := output_messages
                           terminated := s1.terminated, info := info }
          requests := [messages] }
  else
    { state := { s1 with terminated := true }
      result := some { output_messages := []
                       terminated := true
                       info := ChatAgent.get_info none none
                         ["max_tokens_exceeded"] num_tokens }
      requests := [] }

/-- Outcome of the retry-wrapped `ChatAgent.step`: final state, returned
triple (`none` when all attempts raised and the exception propagates), all
requests sent to the external service (each recorded as the transcript it
carried), and the number of attempts executed. -/
structure RetryOutcome where
  state : ChatAgent
  result : Option StepResult
  requests : List (List ChatMessage)
  attempts : Nat
deriving DecidableEq, Repr

/-- The tenacity loop `retry(wait=wait_fixed(60), stop=stop_after_attempt(5))`
around the body of `step`: run one attempt; on an exception re-run the whole
body (against the mutated state) until the attempt budget is exhausted, then
propagate. `oracles` lists the per-attempt service outcomes. The fixed
60-second wait has no observable effect in this state model. -/
def stepRetryAux (numTokens : List ChatMessage → Nat) (input_message : ChatMessage) :
    Nat → List (Option ServiceResponse) → ChatAgent → RetryOutcome
  | 0, _, s => { state := s, result := none, requests := [], attempts := 0 }
  | fuel + 1, oracles, s =>
    let a := stepAttempt numTokens (oracles.headD none) s input_message
    match a.result with
    | some r =>
      { state := a.state, result := some r, requests := a.requests
        attempts := 1 }
    | none =>
      if fuel = 0 then
        { state := a.state, result := none, requests := a.requests
          attempts := 1 }
      else
        let rest := stepRetryAux numTokens input_message fuel oracles.tail a.state
        { state := rest.state, result := rest.result
          requests := a.requests ++ rest.requests
          attempts := 1 + rest.attempts }

/-- `ChatAgent.step`, as decorated in the source: the retry wrapper is applied
to the whole method, with up to 5 total attempts. -/
def ChatAgent.step (numTokens : List ChatMessage → Nat)
    (oracles : List (Option ServiceResponse)) (s : ChatAgent)
    (input_message : ChatMessage) : RetryOutcome :=
  stepRetryAux numTokens input_message 5 oracles s

/-- Auxiliary recursion for Python's `str.replace` over character lists,
structural in a fuel argument so that concrete instances reduce in the kernel.
Python replaces every non-overlapping occurrence of a nonempty pattern,
scanning left to right. -/
def strReplaceAux (pat rep : List Char) : Nat → List Char → List Char
  | 0, s => s
  | _ + 1, [] => []
  | fuel + 1, c :: rest =>
    if pat ≠ [] ∧ pat.isPrefixOf (c :: rest) then
      rep ++ strReplaceAux pat rep fuel ((c :: rest).drop pat.length)
    else
      c :: strReplaceAux pat rep fuel rest

/-- Python's `s.replace(pat, rep)` for a nonempty pattern: replace every
non-overlapping occurrence of `pat` in `s` by `rep`, left to right. -/
def pyReplace (s pat rep : String) : String :=
  String.mk (strReplaceAux pat.data rep.data s.data.length s.data)

/-- Python's `pat in s` substring test for a nonempty pattern. -/
def strContains : List Char → List Char → Bool
  | [], pat => pat.isEmpty
  | c :: rest, pat => pat.isPrefixOf (c :: rest) || strContains rest pat

/-- String-level wrapper for `strContains`. -/
def pyContains (s pat : String) : Bool :=
  strContains s.data pat.data

/-- The fixed persona of a `TaskSpecifyAgent`: the `SystemMessage` literal in
`TaskSpecifyAgent.__init__` (the `SystemMessage` class carries the wire role
tag `system`). -/
def taskSpecifierSystemMessage : ChatMessage :=
  { role_name := "task_specifier", role_type := RoleType.assistant
    role := "system"
    content := "You can specify a task for the assistant to perform." }

/-- The state of a `TaskSpecifyAgent`: the inherited `ChatAgent` state plus
the `task_specify_prompt` field. -/
structure TaskSpecifyAgent extends ChatAgent where
  task_specify_prompt : String
deriving DecidableEq, Repr

/-- `TaskSpecifyAgent.__init__`: when no template is supplied directly, read
the template file (`fileTemplate` stands for its content, an external
collaborator) and replace `<WORD_LIMIT>` with `str(word_limit)`; a directly
supplied template is stored as given. Then construct the base agent with the
fixed persona. -/
def TaskSpecifyAgent.mkTaskSpecifyAgent (model_token_limit : Nat)
    (task_specify_prompt : Option String) (fileTemplate : String)
    (word_limit : Nat) : TaskSpecifyAgent :=
  let prompt :=
    match task_specify_prompt with
    | none => pyReplace fileTemplate "<WORD_LIMIT>" (toString word_limit)
    | some p => p
  { toChatAgent := ChatAgent.mkAgent taskSpecifierSystemMessage model_token_limit
    task_specify_prompt := prompt }

/-- The ways `specify_task` can fail: the propagated retry-exhaustion
exception from `step`, the `IndexError` from `specified_task_msgs[0]` on an
empty list, and the `RuntimeError("Task specification failed.")`. -/
inductive SpecifyError where
  | serviceError
  | indexError
  | taskSpecFailed
deriving DecidableEq, Repr

/-- `TaskSpecifyAgent.specify_task`: reset, overwrite the stored template
with the `<TASK>`-filled text, run one (retry-wrapped) `step` on it as a
user-role message (`UserChatMessage` carries the wire role tag `user`), take
`specified_task_msgs[0]` — before the `terminated` check — and then either
raise `RuntimeError("Task specification failed.")` or return the content. -/
def TaskSpecifyAgent.specify_task (numTokens : List ChatMessage → Nat)
    (oracles : List (Option ServiceResponse)) (st : TaskSpecifyAgent)
    (original_task_prompt : String) : TaskSpecifyAgent × Except SpecifyError String :=
  let a := (ChatAgent.reset st.toChatAgent).1
  let prompt := pyReplace st.task_specify_prompt "<TASK>" original_task_prompt
  let task_msg : ChatMessage :=
    { role_name := "task_specifier", role_type := RoleType.user
      role := "user", content := prompt }
  let out := ChatAgent.step numTokens oracles a task_msg
  let st1 : TaskSpecifyAgent :=
    { toChatAgent := out.state, task_specify_prompt := prompt }
  match out.result with
  | none => (st1, Except.error SpecifyError.serviceError)
  | some r =>
    match r.output_messages.head? with
    | none => (st1, Except.error SpecifyError.indexError)
    | some specified_task_msg =>
      if r.terminated then (st1, Except.error SpecifyError.taskSpecFailed)
      else (st1, Except.ok specified_task_msg.content)

/-- One operation a caller can perform on a `ChatAgent`: a (retry-wrapped)
`step` under a given token counter and service oracle, an `update_messages`,
or a `reset`. -/
inductive AgentOp where
  | stepOp (numTokens : List ChatMessage → Nat)
      (oracles : List (Option ServiceResponse)) (input_message : ChatMessage)
  | updateOp (message : ChatMessage)
  | resetOp

/-- Apply one operation to the agent state, discarding returned values. -/
def applyOp (s : ChatAgent) : AgentOp → ChatAgent
  | AgentOp.stepOp numTokens oracles input_message =>
    (ChatAgent.step numTokens oracles s input_message).state
  | AgentOp.updateOp message => (ChatAgent.update_messages s message).1
  | AgentOp.resetOp => (ChatAgent.reset s).1

/-- Run a sequence of operations from a starting state. -/
def runOps (s : ChatAgent) : List AgentOp → ChatAgent
  | [] => s
  | op :: rest => runOps (applyOp s op) rest

/-- Run a sequence of `step` calls, each with its own token counter, service
oracle and incoming message, threading the state. -/
def runStepSeq (s : ChatAgent) :
    List ((List ChatMessage → Nat) × List (Option ServiceResponse) × ChatMessage) →
    ChatAgent
  | [] => s
  | (numTokens, oracles, input_message) :: rest =>
    runStepSeq (ChatAgent.step numTokens oracles s input_message).state rest

/-! ### Concrete fixtures used by witnesses and counterexamples -/

/-- The system message of the demo agent in the source's `__main__` block. -/
def exampleSystemMessage : ChatMessage :=
  { role_name := "doctor", role_type := RoleType.assistant, role := "system"
    content := "You are a doctor." }

/-- A concrete token counter: one token per message. -/
def lenTokens : List ChatMessage → Nat := fun ms => ms.length

/-- The incoming user message of the demo in the source's `__main__` block. -/
def helloMsg : ChatMessage :=
  { role_name := "patient", role_type := RoleType.user, role := "user"
    content := "Hello!" }

/-- A concrete single-candidate service choice. -/
def exampleChoice : Choice :=
  { message_role := "assistant", message_content := "Hi! How can I help?"
    finish_reason := "stop" }

/-- A concrete successful service response. -/
def exampleResponse : ServiceResponse :=
  { id := "chatcmpl-1", usage := [("total_tokens", 7)]
    choices := [exampleChoice] }

/-- An agent whose token ceiling (1) is already exceeded by any turn. -/
def tinyAgent : ChatAgent := ChatAgent.mkAgent exampleSystemMessage 1

/-- An agent with a comfortable token ceiling. -/
def bigAgent : ChatAgent := ChatAgent.mkAgent exampleSystemMessage 100

/-! ### Helper lemmas about one attempt and the retry loop -/

/-- Over-budget branch of one attempt: no service call, terminated set,
empty output, sentinel metadata. -/
lemma stepAttempt_over_budget (numTokens : List ChatMessage → Nat)
    (oracle : Option ServiceResponse) (s : ChatAgent) (m : ChatMessage)
    (h : s.model_token_limit ≤ numTokens (s.stored_messages ++ [m])) :
    stepAttempt numTokens oracle s m =
      { state := { s with stored_messages := s.stored_messages ++ [m]
                          terminated := true }
        result := some
          { output_messages := []
            terminated := true
            info := { id := none, usage := none
                      finish_reasons := ["max_tokens_exceeded"]
                      num_tokens := numTokens (s.stored_messages ++ [m]) } }
        requests := [] } := by
  simp only [stepAttempt, ChatAgent.update_messages, ChatAgent.get_info]
  rw [if_neg (Nat.not_lt.mpr h)]

/-- Under-budget branch with a successful service response that has at least
one choice: one service call, one output message per choice, first choice
appended to history, terminated flag passed through. -/
lemma stepAttempt_under_budget (numTokens : List ChatMessage → Nat)
    (oracle : Option ServiceResponse) (s : ChatAgent) (m : ChatMessage)
    (response : ServiceResponse) (first_choice : Choice) (rest : List Choice)
    (ho : oracle = some response)
    (hc : response.choices = first_choice :: rest)
    (h : numTokens (s.stored_messages ++ [m]) < s.model_token_limit) :
    stepAttempt numTokens oracle s m =
      { state := { s with stored_messages :=
                     s.stored_messages ++ [m] ++ [choiceToMessage s first_choice] }
        result := some
          { output_messages := (first_choice :: rest).map (choiceToMessage s)
            terminated := s.terminated
            info := { id := some response.id, usage := some response.usage
                      finish_reasons :=
                        (first_choice :: rest).map (fun choice => choice.finish_reason)
                      num_tokens := numTokens (s.stored_messages ++ [m]) } }
        requests := [s.stored_messages ++ [m]] } := by
  subst ho
  simp only [stepAttempt, ChatAgent.update_messages, ChatAgent.get_info, hc]
  rw [if_pos h]
  rfl

/-- Under-budget branch where the service call raises: state keeps the
appended incoming message, no result, one service call. -/
lemma stepAttempt_service_failure (numTokens : List ChatMessage → Nat)
    (s : ChatAgent) (m : ChatMessage)
    (h : numTokens (s.stored_messages ++ [m]) < s.model_token_limit) :
    stepAttempt numTokens none s m =
      { state := { s with stored_messages := s.stored_messages ++ [m] }
        result := none
        requests := [s.stored_messages ++ [m]] } := by
  simp only [stepAttempt, ChatAgent.update_messages]
  rw [if_pos h]

/-- When the first attempt returns a result, the retry loop stops after one
attempt. -/
lemma stepRetryAux_first_some (numTokens : List ChatMessage → Nat)
    (m : ChatMessage) (fuel : Nat) (oracles : List (Option ServiceResponse))
    (s st : ChatAgent) (r : StepResult) (rq : List (List ChatMessage))
    (ha : stepAttempt numTokens (oracles.headD none) s m =
      { state := st, result := some r, requests := rq }) :
    stepRetryAux numTokens m (fuel + 1) oracles s =
      { state := st, result := some r, requests := rq, attempts := 1 } := by
  simp only [stepRetryAux, ha]

/-- When the first attempt raises and attempts remain, the retry loop
re-runs the whole body on the mutated state. -/
lemma stepRetryAux_first_none (numTokens : List ChatMessage → Nat)
    (m : ChatMessage) (fuel : Nat) (oracles : List (Option ServiceResponse))
    (s st : ChatAgent) (rq : List (List ChatMessage))
    (hfuel : fuel ≠ 0)
    (ha : stepAttempt numTokens (oracles.headD none) s m =
      { state := st, result := none, requests := rq }) :
    stepRetryAux numTokens m (fuel + 1) oracles s =
      { state := (stepRetryAux numTokens m fuel oracles.tail st).state
        result := (stepRetryAux numTokens m fuel oracles.tail st).result
        requests := rq ++ (stepRetryAux numTokens m fuel oracles.tail st).requests
        attempts := 1 + (stepRetryAux numTokens m fuel oracles.tail st).attempts } := by
  simp only [stepRetryAux, ha, if_neg hfuel]

/-- Under-budget branch with a successful service response that has zero
choices: `output_messages[0]` raises, so the attempt fails after one service
call, keeping the appended incoming message. -/
lemma stepAttempt_empty_choices (numTokens : List ChatMessage → Nat)
    (s : ChatAgent) (m : ChatMessage) (response : ServiceResponse)
    (hc : response.choices = [])
    (h : numTokens (s.stored_messages ++ [m]) < s.model_token_limit) :
    stepAttempt numTokens (some response) s m =
      { state := { s with stored_messages := s.stored_messages ++ [m] }
        result := none
        requests := [s.stored_messages ++ [m]] } := by
  simp only [stepAttempt, ChatAgent.update_messages, ChatAgent.get_info, hc]
  rw [if_pos h]
  rfl

/-- Shape of the state after one attempt: the incoming message followed by
zero or one outgoing messages is appended, and the terminated flag is only
ever or-ed (never cleared). -/
lemma stepAttempt_state_shape (numTokens : List ChatMessage → Nat)
    (oracle : Option ServiceResponse) (s : ChatAgent) (m : ChatMessage) :
    ∃ (t : List ChatMessage) (b : Bool),
      (∀ x ∈ t, x.role_name = s.role_name) ∧
      (stepAttempt numTokens oracle s m).state =
        { s with stored_messages := s.stored_messages ++ m :: t
                 terminated := s.terminated || b } := by
  by_cases h : numTokens (s.stored_messages ++ [m]) < s.model_token_limit
  · match oracle with
    | none =>
      exact ⟨[], false, by simp, by
        rw [stepAttempt_service_failure numTokens s m h]; simp⟩
    | some response =>
      match hc : response.choices with
      | [] =>
        exact ⟨[], false, by simp, by
          rw [stepAttempt_empty_choices numTokens s m response hc h]; simp⟩
      | first_choice :: rest =>
        refine ⟨[choiceToMessage s first_choice], false, by simp [choiceToMessage], ?_⟩
        rw [stepAttempt_under_budget numTokens (some response) s m response
          first_choice rest rfl hc h]
        simp
  · exact ⟨[], true, by simp, by
      rw [stepAttempt_over_budget numTokens oracle s m (Nat.not_lt.mp h)]; simp⟩

/-- Shape of the state after the retry loop: only appends to the transcript
and or-ing of the terminated flag. -/
lemma stepRetryAux_state_shape (numTokens : List ChatMessage → Nat)
    (m : ChatMessage) :
    ∀ (fuel : Nat) (oracles : List (Option ServiceResponse)) (s : ChatAgent),
      ∃ (t : List ChatMessage) (b : Bool),
        (stepRetryAux numTokens m fuel oracles s).state =
          { s with stored_messages := s.stored_messages ++ t
                   terminated := s.terminated || b }
  | 0, oracles, s => ⟨[], false, by simp [stepRetryAux]⟩
  | fuel + 1, oracles, s => by
    obtain ⟨t1, b1, _, h1⟩ := stepAttempt_state_shape numTokens (oracles.headD none) s m
    rcases ha : (stepAttempt numTokens (oracles.headD none) s m).result with _ | r
    · by_cases hf : fuel = 0
      · subst hf
        refine ⟨m :: t1, b1, ?_⟩
        simp only [stepRetryAux, ha]
        rw [if_pos trivial]
        exact h1
      · obtain ⟨t2, b2, h2⟩ := stepRetryAux_state_shape numTokens m fuel oracles.tail
          (stepAttempt numTokens (oracles.headD none) s m).state
        refine ⟨(m :: t1) ++ t2, b1 || b2, ?_⟩
        simp only [stepRetryAux, ha, if_neg hf]
        rw [h2, h1]
        simp [List.append_assoc, Bool.or_assoc]
    · refine ⟨m :: t1, b1, ?_⟩
      simp only [stepRetryAux, ha]
      exact h1

/-- Each attempt appends the incoming message exactly once (the possible
outgoing message carries the agent's persona name, hence differs from an
incoming message with another role name). -/
lemma stepAttempt_count (numTokens : List ChatMessage → Nat)
    (oracle : Option ServiceResponse) (s : ChatAgent) (m : ChatMessage)
    (h : m.role_name ≠ s.role_name) :
    (stepAttempt numTokens oracle s m).state.stored_messages.count m =
      s.stored_messages.count m + 1 := by
  obtain ⟨t, b, ht, hs⟩ := stepAttempt_state_shape numTokens oracle s m
  rw [hs]
  have htz : t.count m = 0 := by
    refine List.count_eq_zero_of_not_mem fun hm => ?_
    exact h ((ht m hm) ▸ rfl)
  simp [List.count_append, htz, List.count_cons_self]

/-- The retry loop appends the incoming message once per attempt executed. -/
lemma stepRetryAux_count (numTokens : List ChatMessage → Nat) (m : ChatMessage) :
    ∀ (fuel : Nat) (oracles : List (Option ServiceResponse)) (s : ChatAgent),
      m.role_name ≠ s.role_name →
      (stepRetryAux numTokens m fuel oracles s).state.stored_messages.count m =
        s.stored_messages.count m + (stepRetryAux numTokens m fuel oracles s).attempts
  | 0, oracles, s, _ => by simp [stepRetryAux]
  | fuel + 1, oracles, s, h => by
    have hc := stepAttempt_count numTokens (oracles.headD none) s m h
    obtain ⟨t1, b1, _, h1⟩ := stepAttempt_state_shape numTokens (oracles.headD none) s m
    rcases ha : (stepAttempt numTokens (oracles.headD none) s m).result with _ | r
    · by_cases hf : fuel = 0
      · subst hf
        simp only [stepRetryAux, ha]
        simpa using hc
      · have hrole : m.role_name ≠
            (stepAttempt numTokens (oracles.headD none) s m).state.role_name := by
          rw [h1]; exact h
        have ih := stepRetryAux_count numTokens m fuel oracles.tail
          (stepAttempt numTokens (oracles.headD none) s m).state hrole
        simp only [stepRetryAux, ha, if_neg hf]
        rw [ih, hc]
        omega
    · simp only [stepRetryAux, ha]
      simpa using hc

/-! ### Claim theorems -/

/-- C1: for a turn whose computed token count is at or above the model's
token ceiling, `step` makes no external call (`requests = []`), sets the
terminated flag, returns no output messages, and returns metadata with
identifier `none`, usage `none`, finish reasons `["max_tokens_exceeded"]`,
and the computed token count. -/
theorem step_over_budget (numTokens : List ChatMessage → Nat)
    (oracles : List (Option ServiceResponse)) (s : ChatAgent)
    (input_message : ChatMessage)
    (h : s.model_token_limit ≤ numTokens (s.stored_messages ++ [input_message])) :
    ChatAgent.step numTokens oracles s input_message =
      { state := { s with stored_messages := s.stored_messages ++ [input_message]
                          terminated := true }
        result := some
          { output_messages := []
            terminated := true
            info := { id := none, usage := none
                      finish_reasons := ["max_tokens_exceeded"]
                      num_tokens := numTokens (s.stored_messages ++ [input_message]) } }
        requests := []
        attempts := 1 } := by
  exact stepRetryAux_first_some numTokens input_message 4 oracles s _ _ _
    (stepAttempt_over_budget numTokens (oracles.headD none) s input_message h)

/-- Witness for C1 at a concrete over-budget turn. -/
theorem step_over_budget_witness :
    tinyAgent.model_token_limit ≤ lenTokens (tinyAgent.stored_messages ++ [helloMsg]) ∧
    ChatAgent.step lenTokens [] tinyAgent helloMsg =
      { state := { system_message := exampleSystemMessage, role_name := "doctor"
                   role_type := RoleType.assistant, model_token_limit := 1
                   terminated := true
                   stored_messages := [exampleSystemMessage, helloMsg] }
        result := some
          { output_messages := []
            terminated := true
            info := { id := none, usage := none
                      finish_reasons := ["max_tokens_exceeded"], num_tokens := 2 } }
        requests := []
        attempts := 1 } :=
  ⟨by decide, by rw [step_over_budget lenTokens [] tinyAgent helloMsg (by decide)]; decide⟩

/-- C2: for a turn whose computed token count is strictly below the model's
token ceiling and whose first service attempt returns candidates, `step`
makes exactly one external request carrying the full transcript (system
message, history and the new incoming message), builds one outgoing message
per candidate
choice with the agent's persona fields, appends exactly the first candidate's
message to the conversation state while returning all candidates, returns the
pre-existing terminated flag (false unless already true), and returns
metadata with a non-none request identifier, the usage counters, one
finish-reason string per choice, and the computed token count. -/
theorem step_under_budget (numTokens : List ChatMessage → Nat)
    (oracles : List (Option ServiceResponse)) (s : ChatAgent)
    (input_message : ChatMessage) (response : ServiceResponse)
    (first_choice : Choice) (rest : List Choice)
    (ho : oracles.headD none = some response)
    (hc : response.choices = first_choice :: rest)
    (h : numTokens (s.stored_messages ++ [input_message]) < s.model_token_limit) :
    ChatAgent.step numTokens oracles s input_message =
      { state := { s with stored_messages :=
                     s.stored_messages ++ [input_message]
                       ++ [choiceToMessage s first_choice] }
        result := some
          { output_messages := (first_choice :: rest).map (choiceToMessage s)
            terminated := s.terminated
            info := { id := some response.id, usage := some response.usage
                      finish_reasons :=
                        (first_choice :: rest).map (fun choice => choice.finish_reason)
                      num_tokens := numTokens (s.stored_messages ++ [input_message]) } }
        requests := [s.stored_messages ++ [input_message]]
        attempts := 1 } := by
  exact stepRetryAux_first_some numTokens input_message 4 oracles s _ _ _
    (stepAttempt_under_budget numTokens (oracles.headD none) s input_message
      response first_choice rest ho hc h)

/-- Witness for C2 at a concrete under-budget turn with one candidate. -/
theorem step_under_budget_witness :
    ([some exampleResponse] : List (Option ServiceResponse)).headD none
        = some exampleResponse ∧
    exampleResponse.choices = [exampleChoice] ∧
    lenTokens (bigAgent.stored_messages ++ [helloMsg]) < bigAgent.model_token_limit ∧
    ChatAgent.step lenTokens [some exampleResponse] bigAgent helloMsg =
      { state := { system_message := exampleSystemMessage, role_name := "doctor"
                   role_type := RoleType.assistant, model_token_limit := 100
                   terminated := false
                   stored_messages :=
                     [exampleSystemMessage, helloMsg, choiceToMessage bigAgent exampleChoice] }
        result := some
          { output_messages := [choiceToMessage bigAgent exampleChoice]
            terminated := false
            info := { id := some "chatcmpl-1"
                      usage := some [("total_tokens", 7)]
                      finish_reasons := ["stop"], num_tokens := 2 } }
        requests := [[exampleSystemMessage, helloMsg]]
        attempts := 1 } :=
  ⟨rfl, rfl, by decide, by
    rw [step_under_budget lenTokens [some exampleResponse] bigAgent helloMsg
      exampleResponse exampleChoice [] rfl rfl (by decide)]
    decide⟩

/-- Counterexample to C3: the retry decorator wraps the whole `step` method,
so when the first service attempt raises and the second succeeds, the single
turn appends the incoming message twice, not exactly once. -/
theorem step_retry_reappends_incoming :
    (ChatAgent.step lenTokens [none, some exampleResponse] bigAgent
        helloMsg).state.stored_messages =
      [exampleSystemMessage, helloMsg, helloMsg,
        choiceToMessage bigAgent exampleChoice] ∧
    (ChatAgent.step lenTokens [none, some exampleResponse] bigAgent
        helloMsg).state.stored_messages.count helloMsg = 2 := by
  constructor <;> decide

/-- C3 (amended): the bounded retry is applied to the whole `step` method,
not to the external-service call alone; a turn appends the incoming message
once per attempt executed, hence exactly once only when the first attempt
does not raise. The hypothesis that the incoming role name differs from the
agent's persona name separates the incoming message from the outgoing ones. -/
theorem step_appends_incoming_once_per_attempt
    (numTokens : List ChatMessage → Nat)
    (oracles : List (Option ServiceResponse)) (s : ChatAgent)
    (input_message : ChatMessage)
    (h : input_message.role_name ≠ s.role_name) :
    (ChatAgent.step numTokens oracles s input_message).state.stored_messages.count
        input_message =
      s.stored_messages.count input_message +
        (ChatAgent.step numTokens oracles s input_message).attempts :=
  stepRetryAux_count numTokens input_message 5 oracles s h

/-- Witness for the amended C3 on a turn taking two attempts. -/
theorem step_appends_incoming_once_per_attempt_witness :
    helloMsg.role_name ≠ bigAgent.role_name ∧
    (ChatAgent.step lenTokens [none, some exampleResponse] bigAgent
        helloMsg).state.stored_messages.count helloMsg =
      bigAgent.stored_messages.count helloMsg +
        (ChatAgent.step lenTokens [none, some exampleResponse] bigAgent
          helloMsg).attempts :=
  ⟨by decide, step_appends_incoming_once_per_attempt lenTokens
    [none, some exampleResponse] bigAgent helloMsg (by decide)⟩

/-- A task specifier whose token ceiling (1) is exceeded by its single turn. -/
def overBudgetSpecifier : TaskSpecifyAgent :=
  TaskSpecifyAgent.mkTaskSpecifyAgent 1 (some "Help with <TASK> today.") "" 50

/-- C4 evaluated at a failing input: on a budget-exceeded turn the step
returns terminated with zero messages, and `specify_task` hits
`specified_task_msgs[0]` on the empty list — an `IndexError` — before the
`terminated` check, so the `RuntimeError("Task specification failed.")` is
never reached. -/
theorem specify_task_over_budget_index_error :
    (TaskSpecifyAgent.specify_task lenTokens [] overBudgetSpecifier "X").1.terminated
        = true ∧
    (TaskSpecifyAgent.specify_task lenTokens [] overBudgetSpecifier "X").2 =
      Except.error SpecifyError.indexError ∧
    SpecifyError.indexError ≠ SpecifyError.taskSpecFailed := by
  refine ⟨by decide, rfl, by decide⟩

/-- The template fixture for the Task Specifier claims. -/
def c5Template : String := "Do <TASK> in <WORD_LIMIT> words."

/-- Counterexample to C5: a template supplied directly to the constructor is
stored verbatim — `<WORD_LIMIT>` is not replaced by `"50"` (replacement
happens only in the file-loading branch). -/
theorem word_limit_not_substituted_for_supplied_template :
    (TaskSpecifyAgent.mkTaskSpecifyAgent 4096 (some c5Template) "" 50).task_specify_prompt
      = c5Template ∧
    pyContains (TaskSpecifyAgent.mkTaskSpecifyAgent 4096 (some c5Template) ""
      50).task_specify_prompt "<WORD_LIMIT>" = true ∧
    pyReplace c5Template "<WORD_LIMIT>" "50" ≠ c5Template := by
  refine ⟨rfl, by decide, by decide⟩

/-- C5 (amended): only a template loaded from the external source has
`<WORD_LIMIT>` replaced by the word limit's decimal string at construction,
with `<TASK>` left in place; a directly supplied template is stored
verbatim. -/
theorem task_specify_template_at_construction (limit wl : Nat)
    (fileTemplate p : String) :
    (TaskSpecifyAgent.mkTaskSpecifyAgent limit none fileTemplate wl).task_specify_prompt
      = pyReplace fileTemplate "<WORD_LIMIT>" (toString wl) ∧
    (TaskSpecifyAgent.mkTaskSpecifyAgent limit (some p) fileTemplate wl).task_specify_prompt
      = p ∧
    (TaskSpecifyAgent.mkTaskSpecifyAgent 4096 none c5Template 50).task_specify_prompt
      = "Do <TASK> in 50 words." ∧
    pyContains (TaskSpecifyAgent.mkTaskSpecifyAgent 4096 none c5Template
      50).task_specify_prompt "<TASK>" = true :=
  ⟨rfl, rfl, by decide, by decide⟩

/-- Whatever branch `specify_task` takes, the state it returns carries the
`<TASK>`-filled text as its stored template. -/
lemma specify_task_prompt (numTokens : List ChatMessage → Nat)
    (oracles : List (Option ServiceResponse)) (st : TaskSpecifyAgent)
    (t : String) :
    (TaskSpecifyAgent.specify_task numTokens oracles st t).1.task_specify_prompt
      = pyReplace st.task_specify_prompt "<TASK>" t := by
  simp only [TaskSpecifyAgent.specify_task]
  repeat' split
  all_goals rfl

/-- C6: `specify_task` destructively overwrites the stored template with the
`<TASK>`-filled text, so a second call substitutes into the already-filled
text rather than into the original template. -/
theorem specify_task_overwrites_stored_template
    (numTokens numTokens2 : List ChatMessage → Nat)
    (oracles oracles2 : List (Option ServiceResponse))
    (st : TaskSpecifyAgent) (t t2 : String) :
    (TaskSpecifyAgent.specify_task numTokens oracles st t).1.task_specify_prompt
      = pyReplace st.task_specify_prompt "<TASK>" t ∧
    (TaskSpecifyAgent.specify_task numTokens2 oracles2
        (TaskSpecifyAgent.specify_task numTokens oracles st t).1 t2).1.task_specify_prompt
      = pyReplace (pyReplace st.task_specify_prompt "<TASK>" t) "<TASK>" t2 := by
  refine ⟨specify_task_prompt numTokens oracles st t, ?_⟩
  rw [specify_task_prompt, specify_task_prompt]

/-- C7: a freshly constructed agent and a reset agent both have the
terminated flag false and a one-element transcript holding exactly the fixed
system message; `reset` returns that fresh transcript. Its embedding takes
neither the service oracle nor the token counter, reflecting that it
performs no network call. -/
theorem fresh_and_reset_transcript (sys : ChatMessage) (limit : Nat)
    (s : ChatAgent) :
    (ChatAgent.mkAgent sys limit).terminated = false ∧
    (ChatAgent.mkAgent sys limit).stored_messages = [sys] ∧
    (ChatAgent.reset s).1.terminated = false ∧
    (ChatAgent.reset s).1.stored_messages = [s.system_message] ∧
    (ChatAgent.reset s).2 = [s.system_message] :=
  ⟨rfl, rfl, rfl, rfl, rfl⟩

/-- Appending on the right preserves the head of a nonempty list. -/
lemma head?_append_some {α : Type} (l t : List α) (x : α)
    (h : l.head? = some x) : (l ++ t).head? = some x := by
  cases l with
  | nil => simp at h
  | cons a l => simpa using h

/-- Every single operation preserves the system message and keeps it at
index 0 of the transcript. -/
lemma applyOp_head (s : ChatAgent) (op : AgentOp)
    (h : s.stored_messages.head? = some s.system_message) :
    (applyOp s op).system_message = s.system_message ∧
    (applyOp s op).stored_messages.head? = some s.system_message := by
  cases op with
  | stepOp numTokens oracles input_message =>
    obtain ⟨t, b, hshape⟩ :=
      stepRetryAux_state_shape numTokens input_message 5 oracles s
    constructor
    · simp [applyOp, ChatAgent.step, hshape]
    · simp only [applyOp, ChatAgent.step, hshape]
      exact head?_append_some _ _ _ h
  | updateOp message => exact ⟨rfl, head?_append_some _ _ _ h⟩
  | resetOp => exact ⟨rfl, rfl⟩

/-- Any sequence of operations preserves the system message and keeps it at
index 0 of the transcript. -/
lemma runOps_head : ∀ (ops : List AgentOp) (s : ChatAgent),
    s.stored_messages.head? = some s.system_message →
    (runOps s ops).system_message = s.system_message ∧
    (runOps s ops).stored_messages.head? = some s.system_message
  | [], _, h => ⟨rfl, h⟩
  | op :: rest, s, h => by
    obtain ⟨h1, h2⟩ := applyOp_head s op h
    obtain ⟨ih1, ih2⟩ := runOps_head rest (applyOp s op) (by rw [h1]; exact h2)
    refine ⟨?_, ?_⟩ <;> simp only [runOps]
    · rw [ih1, h1]
    · rw [ih2, h1]

/-- C8: in every state reachable from construction by `step`,
`update_messages` and `reset` operations, index 0 of the conversation state
is the fixed system message; no operation removes it, and `reset` replaces
the whole transcript with it alone. -/
theorem system_message_pinned_at_index_zero (sys : ChatMessage) (limit : Nat)
    (ops : List AgentOp) :
    (runOps (ChatAgent.mkAgent sys limit) ops).stored_messages.head? = some sys ∧
    ∀ s : ChatAgent,
      (applyOp s AgentOp.resetOp).stored_messages = [s.system_message] := by
  constructor
  · exact (runOps_head ops (ChatAgent.mkAgent sys limit) rfl).2
  · intro s
    rfl

/-- C9: `reset` is idempotent — the state and the returned transcript after
two consecutive resets equal those after one. -/
theorem reset_idempotent (s : ChatAgent) :
    ChatAgent.reset (ChatAgent.reset s).1 = ChatAgent.reset s := rfl

/-- On every attempt, the returned terminated flag equals the terminated
flag of the state after the attempt. -/
lemma stepAttempt_result_flag (numTokens : List ChatMessage → Nat)
    (oracle : Option ServiceResponse) (s : ChatAgent) (m : ChatMessage) :
    (stepAttempt numTokens oracle s m).result.all
      (fun r => r.terminated == (stepAttempt numTokens oracle s m).state.terminated)
      = true := by
  by_cases h : numTokens (s.stored_messages ++ [m]) < s.model_token_limit
  · match oracle with
    | none => rw [stepAttempt_service_failure numTokens s m h]; rfl
    | some response =>
      match hc : response.choices with
      | [] => rw [stepAttempt_empty_choices numTokens s m response hc h]; rfl
      | first_choice :: rest =>
        rw [stepAttempt_under_budget numTokens (some response) s m response
          first_choice rest rfl hc h]
        simp
  · rw [stepAttempt_over_budget numTokens oracle s m (Nat.not_lt.mp h)]
    simp

/-- After the retry loop, the returned terminated flag (when a result is
returned at all) equals the terminated flag of the final state. -/
lemma stepRetryAux_result_flag (numTokens : List ChatMessage → Nat)
    (m : ChatMessage) :
    ∀ (fuel : Nat) (oracles : List (Option ServiceResponse)) (s : ChatAgent),
      (stepRetryAux numTokens m fuel oracles s).result.all
        (fun r =>
          r.terminated == (stepRetryAux numTokens m fuel oracles s).state.terminated)
        = true
  | 0, _, _ => rfl
  | fuel + 1, oracles, s => by
    have hA := stepAttempt_result_flag numTokens (oracles.headD none) s m
    rcases ha : (stepAttempt numTokens (oracles.headD none) s m).result with _ | r
    · by_cases hf : fuel = 0
      · subst hf
        simp only [stepRetryAux, ha]
        rw [if_pos trivial]
        rfl
      · have ih := stepRetryAux_result_flag numTokens m fuel oracles.tail
          (stepAttempt numTokens (oracles.headD none) s m).state
        simp only [stepRetryAux, ha, if_neg hf]
        exact ih
    · simp only [stepRetryAux, ha]
      rw [ha] at hA
      exact hA

/-- The retry loop never clears the terminated flag. -/
lemma stepRetryAux_terminated_true (numTokens : List ChatMessage → Nat)
    (m : ChatMessage) (fuel : Nat) (oracles : List (Option ServiceResponse))
    (s : ChatAgent) (h : s.terminated = true) :
    (stepRetryAux numTokens m fuel oracles s).state.terminated = true := by
  obtain ⟨t, b, hs⟩ := stepRetryAux_state_shape numTokens m fuel oracles s
  rw [hs]
  simp [h]

/-- A terminated agent stays terminated across any sequence of `step`
calls. -/
lemma runStepSeq_terminated :
    ∀ (seq : List ((List ChatMessage → Nat) × List (Option ServiceResponse) × ChatMessage))
      (s : ChatAgent), s.terminated = true → (runStepSeq s seq).terminated = true
  | [], _, h => h
  | (numTokens, oracles, input_message) :: rest, s, h =>
    runStepSeq_terminated rest _
      (stepRetryAux_terminated_true numTokens input_message 5 oracles s h)

/-- C10: the terminated flag is monotone under `step` — once true it stays
true across any sequence of `step` calls, a successful under-budget turn on
a terminated agent still returns `terminated = true`, `update_messages`
leaves the flag alone, and only `reset` clears it. -/
theorem terminated_is_monotone_under_step (s : ChatAgent)
    (seq : List ((List ChatMessage → Nat) × List (Option ServiceResponse) × ChatMessage))
    (numTokens : List ChatMessage → Nat)
    (oracles : List (Option ServiceResponse)) (input_message : ChatMessage)
    (h : s.terminated = true) :
    (runStepSeq s seq).terminated = true ∧
    (ChatAgent.step numTokens oracles s input_message).state.terminated = true ∧
    (ChatAgent.step numTokens oracles s input_message).result.all
      (fun r => r.terminated) = true ∧
    (ChatAgent.update_messages s input_message).1.terminated = true := by
  have hstate : (ChatAgent.step numTokens oracles s input_message).state.terminated
      = true :=
    stepRetryAux_terminated_true numTokens input_message 5 oracles s h
  have hflag : (ChatAgent.step numTokens oracles s input_message).result.all
      (fun r =>
        r.terminated == (ChatAgent.step numTokens oracles s input_message).state.terminated)
      = true :=
    stepRetryAux_result_flag numTokens input_message 5 oracles s
  refine ⟨runStepSeq_terminated seq s h, hstate, ?_, h⟩
  rcases he : (ChatAgent.step numTokens oracles s input_message).result with _ | r
  · rfl
  · rw [he] at hflag
    rw [hstate] at hflag
    simpa using hflag

/-- A concrete already-terminated agent. -/
def terminatedAgent : ChatAgent := { bigAgent with terminated := true }

/-- A concrete sequence of two `step` calls (one under-budget success, one
retry exhaustion). -/
def stepSeqFixture :
    List ((List ChatMessage → Nat) × List (Option ServiceResponse) × ChatMessage) :=
  [(lenTokens, [some exampleResponse], helloMsg), (lenTokens, [], helloMsg)]

/-- Witness for C10 on a concrete terminated agent. -/
theorem terminated_is_monotone_under_step_witness :
    terminatedAgent.terminated = true ∧
    (runStepSeq terminatedAgent stepSeqFixture).terminated = true ∧
    (ChatAgent.step lenTokens [some exampleResponse] terminatedAgent
      helloMsg).state.terminated = true ∧
    (ChatAgent.step lenTokens [some exampleResponse] terminatedAgent
      helloMsg).result.all (fun r => r.terminated) = true ∧
    (ChatAgent.update_messages terminatedAgent helloMsg).1.terminated = true := by
  have hm := terminated_is_monotone_under_step terminatedAgent stepSeqFixture
    lenTokens [some exampleResponse] helloMsg rfl
  exact ⟨rfl, hm.1, hm.2.1, hm.2.2.1, hm.2.2.2⟩
